/-
Verification of the resilient request layer and bulk mutation/reconciliation
orchestrator of the `backendreview` repository.

Shallow embedding: the Python classes and functions under `src/pricer/bm/` are
translated into pure Lean definitions.  Machine floats used by the source for
token counts, timestamps and delays are modelled as rationals (`ℚ`); the
monotonic clock is an explicit `now : ℚ` argument threaded through every
operation that reads `time.monotonic()` / `time.time()`.  Network I/O is
abstracted: a response becomes a record of exactly the attributes the source
reads, and `Requester.send`'s per-response processing becomes a pure
classification function from that record to the effects the source performs
(circuit-breaker call, rate-bucket call, exception raised).
-/

import Mathlib

/-! ## Error taxonomy (src/pricer/core/exceptions.py)

One constructor per concrete `BackMarket*Error` class that `Requester.send`
can raise or that the repository classifies; `wafError` mirrors
`BackMarketWAFError` ("403/HTML/WAF/bot management block"). -/

inductive SendError where
  | rateLimit     -- BackMarketRateLimitError (429)
  | serverError   -- BackMarketServerError (5xx)
  | networkError  -- BackMarketNetworkError (transport level)
  | badRequest    -- BackMarketBadRequestError (400)
  | authError     -- BackMarketAuthError (401)
  | forbidden     -- BackMarketForbiddenError ("403 application-level, not WAF")
  | wafError      -- BackMarketWAFError ("403/HTML/WAF/bot management block")
  | notFound      -- BackMarketNotFoundError (404)
  | apiError      -- BackMarketAPIError (unexpected status / protocol errors)
  deriving DecidableEq, Repr

/-! ## Response attributes read by `Requester.send` (client.py:262-274)

`send` reads the status, the `Content-Type` header, the body text, the
`Retry-After` header (429 branch) and the `cf-ray` header (logged).  The body
and header values are reduced to the shape predicates the spec's WAF
heuristics talk about; the source uses `body_text` only as an error-message
prefix and for JSON detection on success, never for classification. -/

structure Response where
  status : Nat
  /-- body text looks like an HTML bot-challenge page (known challenge phrases). -/
  bodyHtmlChallenge : Bool
  /-- a `cf-ray` header is present on the response. -/
  hasCfRay : Bool
  /-- the `Content-Type` header is `application/json`. -/
  contentTypeJson : Bool
  /-- parsed `Retry-After` header, when present and float-parsable. -/
  retryAfter : Option ℚ
  deriving DecidableEq, Repr

/-- Effect of one classified response on the category's circuit breaker. -/
inductive BreakerEffect where
  | recordsSuccess
  | recordsFailure
  | untouched
  deriving DecidableEq, Repr

/-- Effect of one classified response on the category's token bucket. -/
inductive BucketEffect where
  | recordsOk
  | penalizes
  | untouched
  deriving DecidableEq, Repr

/-- The effects `Requester.send` performs for one received response:
what it does to the breaker and the bucket, and which error it raises
(`none` = 2xx success, the parsed body is returned). -/
structure StepAction where
  breaker : BreakerEffect
  bucket : BucketEffect
  raises : Option SendError
  deriving DecidableEq, Repr

/-- Status dispatch of `Requester.send` (client.py:278-332), in source order:
2xx → breaker success, bucket `record_ok`, return body;
429 → bucket `penalize`, sleep `Retry-After`, raise rate-limit (breaker untouched);
5xx → breaker failure, raise server error;
400 → raise bad request; 401 → raise auth;
403 → breaker failure, raise `BackMarketForbiddenError` (the body, `cf-ray`
and content type are not consulted: no WAF classification happens here);
404 → breaker failure only when `retry_404` was passed, raise not-found;
anything else → raise generic API error. -/
def sendClassify (r : Response) (retry_404 : Bool) : StepAction :=
  if 200 ≤ r.status ∧ r.status < 300 then
    ⟨.recordsSuccess, .recordsOk, none⟩
  else if r.status = 429 then
    ⟨.untouched, .penalizes, some .rateLimit⟩
  else if 500 ≤ r.status ∧ r.status < 600 then
    ⟨.recordsFailure, .untouched, some .serverError⟩
  else if r.status = 400 then
    ⟨.untouched, .untouched, some .badRequest⟩
  else if r.status = 401 then
    ⟨.untouched, .untouched, some .authError⟩
  else if r.status = 403 then
    ⟨.recordsFailure, .untouched, some .forbidden⟩
  else if r.status = 404 then
    ⟨if retry_404 then .recordsFailure else .untouched, .untouched, some .notFound⟩
  else
    ⟨.untouched, .untouched, some .apiError⟩

/-- The retry loop's `except` clause (client.py:334-338): only
`BackMarketRateLimitError`, `BackMarketServerError`, `BackMarketNetworkError`
(and transport-level `aiohttp.ClientError`, folded into `networkError` here)
are caught, backed off and retried; every other exception breaks the loop and
is re-raised immediately (client.py:339-344). -/
def retriedInLoop : SendError → Bool
  | .rateLimit => true
  | .serverError => true
  | .networkError => true
  | _ => false

/-! ## CircuitBreaker (src/pricer/bm/requester/circuit_breaker.py) -/

structure CircuitBreaker where
  fail_threshold : Nat
  cooldown : ℚ
  consecutive : Nat
  open_until : ℚ
  deriving DecidableEq, Repr

namespace CircuitBreaker

/-- `CircuitBreaker(fail_threshold, cooldown_seconds)`. -/
def init (fail_threshold : Nat) (cooldown_seconds : ℚ) : CircuitBreaker :=
  { fail_threshold := fail_threshold, cooldown := cooldown_seconds
    consecutive := 0, open_until := 0 }

/-- `allow()`: true iff `time.monotonic() >= self._open_until`. -/
def allow (b : CircuitBreaker) (now : ℚ) : Bool :=
  b.open_until ≤ now

/-- `record_success()`: zero the failure streak. -/
def record_success (b : CircuitBreaker) : CircuitBreaker :=
  { b with consecutive := 0 }

/-- `record_failure()`: increment the streak; at `fail_threshold` open for
`cooldown` seconds and reset the streak to 0. -/
def record_failure (b : CircuitBreaker) (now : ℚ) : CircuitBreaker :=
  let c := b.consecutive + 1
  if b.fail_threshold ≤ c then
    { b with consecutive := 0, open_until := now + b.cooldown }
  else
    { b with consecutive := c }

/-- Apply a classified response's breaker effect to a breaker state. -/
def applyEffect (b : CircuitBreaker) (now : ℚ) : BreakerEffect → CircuitBreaker
  | .recordsSuccess => b.record_success
  | .recordsFailure => b.record_failure now
  | .untouched => b

end CircuitBreaker

/-! ## TokenBucket (src/pricer/bm/requester/rate_limiter.py)

The per-category bucket the `Requester` constructs.  `tokens`,
`_effective_max` and `updated_at` are floats in the source, modelled as `ℚ`;
`time.monotonic()` is the explicit `now` argument.  The source guards all
mutation with `self._lock`, so each operation is an atomic state
transformation. -/

structure TokenBucket where
  base_max : Nat
  /-- `self._effective_max` (a float in the source). -/
  eff_max : ℚ
  /-- `self.window_seconds` (converted to float by the constructor). -/
  window_seconds : ℚ
  tokens : ℚ
  updated_at : ℚ
  ok_streak : Nat
  deriving DecidableEq, Repr

namespace TokenBucket

/-- `TokenBucket(max_per_window, window_seconds)` constructed at time `now`. -/
def init (max_per_window window_seconds : Nat) (now : ℚ) : TokenBucket :=
  { base_max := max_per_window
    eff_max := (max_per_window : ℚ)
    window_seconds := (window_seconds : ℚ)
    tokens := (max_per_window : ℚ)
    updated_at := now
    ok_streak := 0 }

/-- `effective_max()` = `max(1, int(self._effective_max))`; `int()` truncates,
which on the non-negative floats reachable here is the floor. -/
def effective_max (b : TokenBucket) : Nat :=
  max 1 ⌊b.eff_max⌋.toNat

/-- `acquire()` at time `now`: refill `effective_max() * elapsed / window`,
clamp to `effective_max()`; then, if fewer than one token is available,
compute the projected wait `(1 - tokens) / max(rate, 1e-6)` and return it
WITHOUT consuming a token (the source sleeps that long and returns);
otherwise consume one token and return a zero wait.  Returns the updated
bucket and the slept time. -/
def acquire (b : TokenBucket) (now : ℚ) : TokenBucket × ℚ :=
  let elapsed := now - b.updated_at
  let refill := ((b.effective_max : ℚ) * elapsed) / b.window_seconds
  let tk := min ((b.effective_max : ℚ)) (b.tokens + refill)
  if tk < 1 then
    let rate_per_sec := (b.effective_max : ℚ) / b.window_seconds
    let sleep_time := (1 - tk) / max rate_per_sec (1 / 1000000)
    ({ b with tokens := tk, updated_at := now }, sleep_time)
  else
    ({ b with tokens := tk - 1, updated_at := now }, 0)

/-- `penalize(factor)`: `_effective_max = max(1.0, _effective_max * factor)`,
reset `ok_streak`.  The token count is NOT re-clamped here. -/
def penalize (b : TokenBucket) (factor : ℚ) : TokenBucket :=
  { b with eff_max := max 1 (b.eff_max * factor), ok_streak := 0 }

/-- `record_ok(recover_after_ok)`: bump the streak; once it reaches the
threshold and `_effective_max < base_max`, step back toward `base_max` by
`max(1.0, gap * 0.25)` (clamped at `base_max`) and reset the streak. -/
def record_ok (b : TokenBucket) (recover_after_ok : Nat) : TokenBucket :=
  let streak := b.ok_streak + 1
  if recover_after_ok ≤ streak ∧ b.eff_max < (b.base_max : ℚ) then
    let gap := (b.base_max : ℚ) - b.eff_max
    { b with eff_max := min (b.base_max : ℚ) (b.eff_max + max 1 (gap * (1 / 4)))
             ok_streak := 0 }
  else
    { b with ok_streak := streak }

end TokenBucket

/-! ## AdaptiveTokenBucket (src/pricer/bm/requester/adaptive_bucket.py)

The second (unused by `Requester`) bucket implementation.  Its `acquire`
loops: refill, consume if a full token is available, otherwise sleep an
estimated wait and try again.  The loop is modelled with explicit fuel; the
source loop is unbounded. -/

structure AdaptiveTokenBucket where
  /-- `self._base_max = max(1, max_per_window)`. -/
  base_max : Nat
  /-- `self._window = max(1, window_seconds)`. -/
  window : ℚ
  /-- `self._penalty_factor`, clamped into `[0.1, 1.0]`. -/
  penalty_factor : ℚ
  /-- `self._recover_after_ok = max(1, recover_after_ok)`. -/
  recover_after_ok : Nat
  eff_max : ℚ
  tokens : ℚ
  /-- `self._last` (monotonic timestamp of the last refill). -/
  last : ℚ
  ok_streak : Nat
  deriving DecidableEq, Repr

namespace AdaptiveTokenBucket

/-- `AdaptiveTokenBucket(max_per_window, window_seconds, penalty_factor,
recover_after_ok)` constructed at time `now`. -/
def init (max_per_window window_seconds : Nat) (penalty_factor : ℚ)
    (recover_after_ok : Nat) (now : ℚ) : AdaptiveTokenBucket :=
  let base := max 1 max_per_window
  { base_max := base
    window := (max 1 window_seconds : Nat)
    penalty_factor := max (1 / 10) (min 1 penalty_factor)
    recover_after_ok := max 1 recover_after_ok
    eff_max := (base : ℚ)
    tokens := (base : ℚ)
    last := now
    ok_streak := 0 }

/-- `_refill()` at time `now`. -/
def refillAt (b : AdaptiveTokenBucket) (now : ℚ) : AdaptiveTokenBucket :=
  let elapsed := now - b.last
  { b with last := now
           tokens := min (b.tokens + (b.eff_max / b.window) * elapsed) b.eff_max }

/-- One-or-more iterations of `acquire()`'s wait loop, with fuel.  Each
iteration refills; with a full token available it consumes one and returns
the finish time, otherwise it sleeps `max(0.01, deficit / max(rate, 0.0001))`
(modelled by advancing `now`) and loops. -/
def acquireAux : Nat → AdaptiveTokenBucket → ℚ → Option (AdaptiveTokenBucket × ℚ)
  | 0, _, _ => none
  | fuel + 1, b, now =>
    let b1 := b.refillAt now
    if 1 ≤ b1.tokens then
      some ({ b1 with tokens := b1.tokens - 1 }, now)
    else
      let deficit := 1 - b1.tokens
      let rate_per_sec := b1.eff_max / b1.window
      let wait := max (1 / 100) (deficit / max rate_per_sec (1 / 10000))
      acquireAux fuel b1 (now + wait)

/-- `acquire()` started at time `now`: returns the updated bucket and the
elapsed wall time `max(0.0, time.monotonic() - start)`, or `none` when the
fuel bound does not cover the wait loop. -/
def acquire (fuel : Nat) (b : AdaptiveTokenBucket) (now : ℚ) :
    Option (AdaptiveTokenBucket × ℚ) :=
  (acquireAux fuel b now).map (fun p => (p.1, max 0 (p.2 - now)))

/-- `penalize()`: shrink `_effective_max` by the penalty factor (clamped at
1.0 from below) and re-clamp the token count to the new ceiling. -/
def penalize (b : AdaptiveTokenBucket) : AdaptiveTokenBucket :=
  let eff := max 1 (b.eff_max * b.penalty_factor)
  { b with eff_max := eff, tokens := min b.tokens eff, ok_streak := 0 }

/-- `record_ok()`: after `recover_after_ok` consecutive successes, ramp
`_effective_max` back by `+1.0` toward `_base_max` and reset the streak. -/
def record_ok (b : AdaptiveTokenBucket) : AdaptiveTokenBucket :=
  let streak := b.ok_streak + 1
  if b.recover_after_ok ≤ streak ∧ b.eff_max < (b.base_max : ℚ) then
    { b with eff_max := min (b.base_max : ℚ) (b.eff_max + 1), ok_streak := 0 }
  else
    { b with ok_streak := streak }

end AdaptiveTokenBucket

/-! ## LearningTracker (src/pricer/bm/requester/learning_tracker.py)

`self._stats` is a `defaultdict(EndpointStats)`, modelled as an
insertion-ordered association list; `time.time()` is the explicit `now`
argument. -/

structure EndpointStats where
  ok : Nat
  ratelimit : Nat
  waf : Nat
  server_error : Nat
  network_error : Nat
  client_error : Nat
  last_error_at : Option ℚ
  last_ok_at : Option ℚ
  recommend_delay_s : ℚ
  deriving DecidableEq, Repr

namespace EndpointStats

/-- `EndpointStats()` with all dataclass defaults. -/
def default : EndpointStats :=
  { ok := 0, ratelimit := 0, waf := 0, server_error := 0, network_error := 0
    client_error := 0, last_error_at := none, last_ok_at := none
    recommend_delay_s := 0 }

end EndpointStats

/-- One document of `EndpointStats.to_snapshot(endpoint_tag, run_id)`
(timestamps rendered with `int(...)`, the delay in milliseconds). -/
structure TrackerSnapshot where
  run_id : String
  endpoint_tag : String
  ts : ℤ
  ok : Nat
  ratelimit : Nat
  waf : Nat
  server_error : Nat
  network_error : Nat
  client_error : Nat
  last_error_at : Option ℤ
  last_ok_at : Option ℤ
  recommended_delay_ms : ℤ
  deriving DecidableEq, Repr

/-- `to_snapshot(endpoint_tag, run_id)` taken at wall time `now`. -/
def EndpointStats.to_snapshot (s : EndpointStats) (endpoint_tag run_id : String)
    (now : ℚ) : TrackerSnapshot :=
  { run_id := run_id, endpoint_tag := endpoint_tag, ts := ⌊now⌋
    ok := s.ok, ratelimit := s.ratelimit, waf := s.waf
    server_error := s.server_error, network_error := s.network_error
    client_error := s.client_error
    last_error_at := s.last_error_at.map (⌊·⌋)
    last_ok_at := s.last_ok_at.map (⌊·⌋)
    recommended_delay_ms := ⌊s.recommend_delay_s * 1000⌋ }

/-- The six `Outcome` literals accepted by `LearningTracker.observe`. -/
inductive TrackerOutcome where
  | ok
  | ratelimit
  | waf
  | server_error
  | network_error
  | client_error
  deriving DecidableEq, Repr

/-- One outcome applied to a tag's stats at wall time `now`
(the body of `LearningTracker.observe` after the defaultdict lookup). -/
def EndpointStats.observeOutcome (s : EndpointStats) (outcome : TrackerOutcome)
    (retry_after_s : Option ℚ) (now : ℚ) : EndpointStats :=
  match outcome with
  | .ok =>
    { s with ok := s.ok + 1, last_ok_at := some now
             recommend_delay_s := max 0 (s.recommend_delay_s * (1 / 2)) }
  | .ratelimit =>
    { s with ratelimit := s.ratelimit + 1, last_error_at := some now
             recommend_delay_s :=
               match retry_after_s with
               | some r => max s.recommend_delay_s r
               | none => min (max (s.recommend_delay_s * (3 / 2)) (3 / 4)) 10 }
  | .waf =>
    { s with waf := s.waf + 1, last_error_at := some now
             recommend_delay_s := min (max (s.recommend_delay_s * (3 / 2)) 5) 15 }
  | .server_error =>
    { s with server_error := s.server_error + 1, last_error_at := some now
             recommend_delay_s := min (max (s.recommend_delay_s * (13 / 10)) 2) 10 }
  | .network_error =>
    { s with network_error := s.network_error + 1, last_error_at := some now
             recommend_delay_s := min (max (s.recommend_delay_s * (6 / 5)) 1) 8 }
  | .client_error =>
    { s with client_error := s.client_error + 1, last_error_at := some now }

structure LearningTracker where
  /-- `self._stats`, an insertion-ordered map `endpoint_tag → EndpointStats`. -/
  stats : List (String × EndpointStats)
  last_flush_ts : ℚ
  flush_interval_s : ℚ
  deriving DecidableEq, Repr

namespace LearningTracker

/-- `LearningTracker()`: empty stats, `_last_flush_ts = 0.0`,
`_flush_interval_s = 30.0`. -/
def init : LearningTracker :=
  { stats := [], last_flush_ts := 0, flush_interval_s := 30 }

/-- Update-or-insert for the defaultdict `self._stats[endpoint_tag]`. -/
def updateStats (f : EndpointStats → EndpointStats) :
    List (String × EndpointStats) → String → List (String × EndpointStats)
  | [], tag => [(tag, f EndpointStats.default)]
  | (k, s) :: rest, tag =>
    if k = tag then (k, f s) :: rest else (k, s) :: updateStats f rest tag

/-- `observe(endpoint_tag, outcome, elapsed_ms=None, retry_after_s=None)` at
wall time `now` (`elapsed_ms` is accepted and unused by the source body). -/
def observe (t : LearningTracker) (endpoint_tag : String)
    (outcome : TrackerOutcome) (retry_after_s : Option ℚ) (now : ℚ) :
    LearningTracker :=
  { t with stats :=
      (updateStats (fun s => s.observeOutcome outcome retry_after_s now)
        t.stats endpoint_tag) }

/-- `maybe_flush(run_id)` at wall time `now`: returns `None` while the flush
interval has not elapsed; otherwise updates `_last_flush_ts` and returns a
snapshot for every tag.  `self._stats` is left untouched in both branches:
the source never clears or resets the per-endpoint counters. -/
def maybe_flush (t : LearningTracker) (run_id : String) (now : ℚ) :
    Option (List TrackerSnapshot) × LearningTracker :=
  if now - t.last_flush_ts < t.flush_interval_s then
    (none, t)
  else
    (some (t.stats.map fun p => p.2.to_snapshot p.1 run_id now),
     { t with last_flush_ts := now })

end LearningTracker

/-! ## fetch_all_pages (src/pricer/bm/endpoints/listings_get_all.py)

The consumer-side aggregation over the list of page payloads that
`Requester.paginate` returned.  A page is reduced to the three fields the
function reads: the reported `count` (present only when it is an `int`),
the `next` link, and `results` (`none` models a missing or non-list value,
which raises the shape error).  Items are kept abstract. -/

structure ListingsPage (α : Type) where
  count? : Option ℤ
  next? : Option String
  results? : Option (List α)
  deriving DecidableEq, Repr

/-- The two `BackMarketDataError` raises of `fetch_all_pages`, told apart by
their messages. -/
inductive ListingsDataError where
  | badPageShape   -- "Unexpected listings page shape (missing 'results')"
  | countMismatch  -- "Listings count mismatch: expected N, got M"
  deriving DecidableEq, Repr

/-- The page loop of `fetch_all_pages` (listings_get_all.py:61-68): extend the
result list with every page's `results`, raising on a page whose `results` is
not a list. -/
def collectResults {α : Type} : List (ListingsPage α) → Except ListingsDataError (List α)
  | [] => .ok []
  | p :: rest =>
    match p.results? with
    | none => .error .badPageShape
    | some items =>
      match collectResults rest with
      | .error e => .error e
      | .ok tail => .ok (items ++ tail)

/-- `expected_total` (listings_get_all.py:73-75): the first page's `count`
when it is an int, else `None`. -/
def expectedTotal {α : Type} (pages : List (ListingsPage α)) : Option ℤ :=
  match pages with
  | [] => none
  | p :: _ => p.count?

/-- `fetch_all_pages` after pagination: aggregate the pages' results, then
raise a data-integrity error when the first page reported a count and the
collected length differs from it (listings_get_all.py:77-89). -/
def fetch_all_pages {α : Type} (pages : List (ListingsPage α)) :
    Except ListingsDataError (List α) :=
  match collectResults pages with
  | .error e => .error e
  | .ok results =>
    match expectedTotal pages with
    | some n => if (results.length : ℤ) ≠ n then .error .countMismatch else .ok results
    | none => .ok results

/-! ## Mutation payload and request builders

Two competing mutation paths exist in the source:
`ListingService._update_one` (src/pricer/bm/services/listing_service.py) and
`update_listing_quantity` (src/pricer/bm/services/listings/activation.py).
A child document is reduced to its `max_price` entry — the only child field
either payload builder reads — plus the remaining (never-read) entries, kept
so that independence from them is expressible.  `max_price` is modelled as an
optional decimal string (the data model fixes money-like fields as
decimal-precision strings; the source's defensive branch re-formatting a
numeric `max_price` with two decimals is not exercised by any claim). -/

structure ChildDoc where
  max_price : Option String
  /-- every other entry of the child dict; no payload builder reads these. -/
  rest : List (String × String)
  deriving DecidableEq, Repr

/-- Body of a listing mutation `POST`
(`{min_price, price, currency, quantity}`). -/
structure MutationPayload where
  min_price : Option String
  price : String
  currency : String
  quantity : Nat
  deriving DecidableEq, Repr

/-- `_price_str(child)` (listing_service.py:15-21): a non-blank string
`max_price` is stripped and used, anything else falls back to `"2000.00"`. -/
def price_str (child : ChildDoc) : String :=
  match child.max_price with
  | some s => if s.trim = "" then "2000.00" else s.trim
  | none => "2000.00"

/-- `_payload_for_update(child, activate)` (listing_service.py:24-30). -/
def payload_for_update (child : ChildDoc) (activate : Bool) : MutationPayload :=
  { min_price := none
    price := price_str child
    currency := "GBP"
    quantity := if activate then 1 else 0 }

/-- `build_activation_payload(child, activate)` (activation.py:11-23):
`str(child.get("max_price") or "2000.00")`, so a missing or empty (falsy)
`max_price` falls back to `"2000.00"`. -/
def build_activation_payload (child : ChildDoc) (activate : Bool) : MutationPayload :=
  let price := match child.max_price with
    | some s => if s = "" then "2000.00" else s
    | none => "2000.00"
  { min_price := none
    price := price
    currency := "GBP"
    quantity := if activate then 1 else 0 }

/-- The request that a mutation path hands to `Requester.send`. -/
structure MutationRequest where
  method : String
  path : String
  payload : MutationPayload
  endpoint_tag : String
  category : String
  idempotency_key : Option String
  retry_404 : Bool
  deriving DecidableEq, Repr

/-- The `Requester.send` call of `ListingService._update_one`
(listing_service.py:84-93): `POST /ws/listings/{id}` under the
`seller_mutations` category with `idempotency_key=None`. -/
def updateOneRequest (listing_id : String) (child : ChildDoc) (activate : Bool) :
    MutationRequest :=
  { method := "POST"
    path := "/ws/listings/" ++ listing_id
    payload := payload_for_update child activate
    endpoint_tag := "listing_update"
    category := "seller_mutations"
    idempotency_key := none
    retry_404 := false }

/-- The `Requester.send` call of `update_listing_quantity`
(activation.py:64-82): same `POST`, but with the idempotency key
`f"{run_id}:{listing_id}:{desired_q}:{payload['price']}"` and
`retry_404=True`. -/
def updateListingQuantityRequest (run_id listing_id : String) (child : ChildDoc)
    (activate : Bool) : MutationRequest :=
  let payload := build_activation_payload child activate
  { method := "POST"
    path := "/ws/listings/" ++ listing_id
    payload := payload
    endpoint_tag := "listing_update"
    category := "seller_mutations"
    idempotency_key :=
      some (run_id ++ ":" ++ listing_id ++ ":" ++ toString payload.quantity
            ++ ":" ++ payload.price)
    retry_404 := true }

/-! ## ListingService.full_cycle (src/pricer/bm/services/listing_service.py)

The cycle is modelled around its two paginated snapshots: `baseline_idx`
(before activation) and `final_idx` (after deactivation), each reduced to the
association `listing_id ↦ quantity` — the only snapshot field the selection
and the reconciliation read.  The network outcome of each per-item activation
POST is abstracted into a predicate `actOk : listing_id → Bool` (a per-item
failure is an `UpdateResult` with `ok=False`; `bulk_update` never raises).
Stage timings, logging and the settle sleep do not affect the report fields
the claims are about and carry no information in a pure model; the anomaly
id lists are kept in traversal order instead of Python's `sorted(...)` order,
which leaves their membership and emptiness unchanged. -/

/-- A quantity snapshot: `listing_id ↦ quantity` as built by
`snapshot_index_by_id` (every entry carries an int quantity, defaulted to 0
by `_read_quantity`). -/
abbrev ListingIndex := List (String × ℤ)

/-- First-match lookup in a snapshot index (`baseline_idx.get(lid)`). -/
def lookupQty : ListingIndex → String → Option ℤ
  | [], _ => none
  | (k, q) :: rest, lid => if k = lid then some q else lookupQty rest lid

/-- `qty = snap["quantity"] if snap else 0` (listing_service.py:179). -/
def baselineQty (idx : ListingIndex) (lid : String) : ℤ :=
  (lookupQty idx lid).getD 0

/-- `{lid for (lid, snap) in idx.items() if (snap.get("quantity") or 0) > 0}`:
the ids whose snapshot quantity is positive ("active" is derived, never
stored). -/
def activeIds (idx : ListingIndex) : List String :=
  (idx.filter fun p => decide (0 < p.2)).map (·.1)

/-- One candidate item of `full_cycle`: its id and its child document. -/
structure CycleItem where
  listing_id : String
  child : ChildDoc
  deriving DecidableEq, Repr

/-- The activation selection (listing_service.py:175-181): candidates whose
baseline quantity is ≤ 0, a missing baseline entry counting as 0. -/
def toActivate (items : List CycleItem) (baseline : ListingIndex) : List CycleItem :=
  items.filter fun it => decide (baselineQty baseline it.listing_id ≤ 0)

/-- `CycleReport` (listing_service.py:56-64) restricted to the fields the
claims reason about; `anomalies` is the conditionally-populated dict with its
two possible keys, `details` contributes the activated ids and the two active
counts. -/
structure CycleReport where
  baseline_count : Nat
  activated_count : Nat
  deactivated_count : Nat
  reconcile_ok : Bool
  anomalies : List (String × List String)
  details_activated_ids : List String
  initial_active_count : Nat
  final_active_count : Nat
  deriving DecidableEq, Repr

/-- An anomaly set of a report by its dict key, the empty set when the key is
absent. -/
def CycleReport.anomalySet (r : CycleReport) (key : String) : List String :=
  (r.anomalies.lookup key).getD []

/-- `ListingService.full_cycle(items, workers, abort_on_first_failure)`
(listing_service.py:159-268) as a function of its candidate items, the two
snapshots its paginated scans observe, and the per-item activation outcome.
`none` models the `BackMarketAPIError` raised when `abort_on_first_failure`
is set and the activation stage reported failures; every other run completes
and returns the report. -/
def full_cycle (items : List CycleItem) (baseline finalIdx : ListingIndex)
    (actOk : String → Bool) (abort_on_first_failure : Bool) :
    Option CycleReport :=
  let sel := toActivate items baseline
  let act_failed := (sel.filter fun it => !actOk it.listing_id).length
  if abort_on_first_failure ∧ 0 < act_failed then
    none
  else
    let initial_active_ids := activeIds baseline
    let final_active_ids := activeIds finalIdx
    let activated_ids := sel.map (·.listing_id)
    let still_active := activated_ids.filter fun lid => decide (lid ∈ final_active_ids)
    let regressed := initial_active_ids.filter fun lid => decide (lid ∉ final_active_ids)
    let anomalies :=
      (if still_active.isEmpty then [] else [("activated_still_active", still_active)])
      ++ (if regressed.isEmpty then [] else [("initial_active_became_inactive", regressed)])
    some
      { baseline_count := baseline.length
        activated_count := sel.length
        deactivated_count := sel.length
        reconcile_ok := anomalies.isEmpty
        anomalies := anomalies
        details_activated_ids := activated_ids
        initial_active_count := initial_active_ids.length
        final_active_count := final_active_ids.length }

/-! # Theorems -/

/-! ## C1 — which responses the circuit breaker counts as failures -/

/-- C1, counterexample: the claim says the breaker records a failure iff the
status is a 5xx server error or a 403.  But `Requester.send` also records a
breaker failure for a 404 when `retry_404` was requested (client.py:325-329),
and 404 is neither a 5xx nor a 403, so the claimed "if and only if" is false
at this input. -/
theorem c1_counterexample_404_with_retry_trips_breaker :
    (sendClassify ⟨404, false, false, false, none⟩ true).breaker
      = BreakerEffect.recordsFailure
    ∧ ¬((500 ≤ 404 ∧ 404 < 600) ∨ 404 = 403) := by
  constructor
  · rfl
  · decide

/-- C1 (amended): for every response processed by `Requester.send`, the
category's circuit breaker records a failure if and only if the HTTP status
is a server error (5xx), a 403, or a 404 with `retry_404` requested; in
particular a 429 response leaves the breaker untouched (so never increments
its failure streak) and a 500 response always records a failure. -/
theorem c1_breaker_failure_iff (r : Response) (retry_404 : Bool) :
    ((sendClassify r retry_404).breaker = BreakerEffect.recordsFailure ↔
      ((500 ≤ r.status ∧ r.status < 600) ∨ r.status = 403
        ∨ (r.status = 404 ∧ retry_404 = true)))
    ∧ (sendClassify { r with status := 429 } retry_404).breaker
        = BreakerEffect.untouched
    ∧ (sendClassify { r with status := 500 } retry_404).breaker
        = BreakerEffect.recordsFailure := by
  refine ⟨?_, ?_, ?_⟩
  · rcases retry_404 <;>
      · unfold sendClassify
        split_ifs <;> first
          | (simp_all; omega)
          | simp_all
  · norm_num [sendClassify]
  · norm_num [sendClassify]

/-! ## C5 — 404 handling and the `retry_404` flag -/

/-- C5: evaluating `Requester.send`'s 404 handling.  A 404 without
`retry_404` raises the non-retryable not-found error, as the claim says; but
with `retry_404` requested the same `BackMarketNotFoundError` is raised and
that error is NOT in the retry loop's `except` clause (client.py:334), so it
also surfaces on the first attempt instead of being retried with backoff —
the flag's only effect is an extra breaker-failure record.  The code
contradicts the opt-in retry its own flag name and call sites
(activation.py:81 "BM edge consistency") promise. -/
theorem c5_404_never_retried :
    (sendClassify ⟨404, false, false, false, none⟩ false).raises
      = some SendError.notFound
    ∧ (sendClassify ⟨404, false, false, false, none⟩ true).raises
      = some SendError.notFound
    ∧ retriedInLoop SendError.notFound = false := by
  decide

/-! ## C7 — 403 classification -/

/-- A 403 response that looks exactly like an HTML bot-challenge page:
challenge phrases in the body, a `cf-ray` header, non-JSON content type. -/
def challengeResponse : Response :=
  { status := 403, bodyHtmlChallenge := true, hasCfRay := true
    contentTypeJson := false, retryAfter := none }

/-- C7, counterexample: the claim says a 403 whose body looks like an HTML
challenge page surfaces as a bot-block/WAF error.  `Requester.send` raises
`BackMarketForbiddenError` for every 403 (client.py:322-324) without looking
at the body, `cf-ray` or content type, so this challenge-page 403 surfaces as
the ordinary forbidden error, not as `BackMarketWAFError`. -/
theorem c7_counterexample_challenge_classified_forbidden :
    (sendClassify challengeResponse false).raises = some SendError.forbidden
    ∧ (sendClassify challengeResponse false).raises ≠ some SendError.wafError := by
  decide

/-- C7 (amended): every 403 response records a breaker failure and surfaces
as the ordinary application-level forbidden error, regardless of whether the
body looks like an HTML challenge page, a `cf-ray` header is present, or the
content type is non-JSON; the WAF/bot-block error kind is never produced by
`Requester.send`'s classification. -/
theorem c7_403_forbidden_regardless_of_body
    (html cfray ctjson : Bool) (ra : Option ℚ) (retry_404 : Bool) :
    (sendClassify ⟨403, html, cfray, ctjson, ra⟩ retry_404).breaker
      = BreakerEffect.recordsFailure
    ∧ (sendClassify ⟨403, html, cfray, ctjson, ra⟩ retry_404).raises
      = some SendError.forbidden
    ∧ ∀ (r : Response) (b : Bool),
        (sendClassify r b).raises ≠ some SendError.wafError := by
  refine ⟨by norm_num [sendClassify], by norm_num [sendClassify], ?_⟩
  intro r b
  unfold sendClassify
  split_ifs <;> simp

/-! ## C8 — idempotency keys on the mutation paths -/

/-- C8, counterexample: the claim says every mutation issued by the bulk
mutation path carries an idempotency key.  The bulk path used by
`full_cycle` — `ListingService.bulk_update` → `_update_one` — passes
`idempotency_key=None` to `Requester.send` (listing_service.py:92), so this
concrete activation mutation carries no key at all. -/
theorem c8_counterexample_bulk_mutation_has_no_key :
    (updateOneRequest "listing-1" ⟨some "250.00", []⟩ true).payload.quantity = 1
    ∧ (updateOneRequest "listing-1" ⟨some "250.00", []⟩ true).idempotency_key
      = none := by
  decide

/-- C8 (amended): mutations issued through `update_listing_quantity`
(activation.py) carry the idempotency key
`run_id:listing_id:desired_quantity:price`, which is a deterministic function
of those four values — in particular independent of every other child field —
while mutations issued by the bulk path (`ListingService._update_one`) carry
no idempotency key. -/
theorem c8_idempotency_keys (run_id lid : String) (mp : Option String)
    (rest rest' : List (String × String)) (activate : Bool) :
    ((updateListingQuantityRequest run_id lid ⟨mp, rest⟩ activate).idempotency_key
      = some (run_id ++ ":" ++ lid ++ ":"
          ++ toString (if activate then (1 : Nat) else 0) ++ ":"
          ++ (build_activation_payload ⟨mp, rest⟩ activate).price))
    ∧ ((updateListingQuantityRequest run_id lid ⟨mp, rest⟩ activate).idempotency_key
      = (updateListingQuantityRequest run_id lid ⟨mp, rest'⟩ activate).idempotency_key)
    ∧ (updateOneRequest lid ⟨mp, rest⟩ activate).idempotency_key = none := by
  refine ⟨?_, ?_, rfl⟩
  · simp [updateListingQuantityRequest, build_activation_payload]
  · rfl

/-! ## C6 — maybe_flush does not clear the counters -/

/-- A tracker that observed one successful `listing_update` call at wall
time 1 (flush interval 30s, last flush at 0). -/
def c6tracker : LearningTracker :=
  LearningTracker.init.observe "listing_update" TrackerOutcome.ok none 1

/-- C6, counterexample: the claim says a flush clears the in-memory
per-endpoint counters so no observation is counted in two successive flush
batches.  Flushing `c6tracker` at t=40 reports `ok=1` for `listing_update`;
flushing the resulting tracker again at t=80 — with no observation in
between — reports `ok=1` for the same tag again, because
`LearningTracker.maybe_flush` (learning_tracker.py:104-110) never touches
`self._stats`: the single observation is counted in both batches. -/
theorem c6_counterexample_observation_reported_twice :
    ((c6tracker.maybe_flush "r" 40).1.map (·.map fun s => (s.endpoint_tag, s.ok))
      = some [("listing_update", 1)])
    ∧ (((c6tracker.maybe_flush "r" 40).2.maybe_flush "r" 80).1.map
        (·.map fun s => (s.endpoint_tag, s.ok))
      = some [("listing_update", 1)])
    ∧ (c6tracker.maybe_flush "r" 40).2.stats = c6tracker.stats := by
  simp only [c6tracker, LearningTracker.init, LearningTracker.observe,
    LearningTracker.updateStats, EndpointStats.observeOutcome,
    EndpointStats.default, LearningTracker.maybe_flush,
    EndpointStats.to_snapshot]
  norm_num

/-- C6 (amended): `maybe_flush(run_id)` returns the batch of per-tag
snapshots exactly when the flush interval has elapsed, and it updates only
the last-flush timestamp: the in-memory per-endpoint counters are NOT
cleared, so whenever a later flush fires without intervening observations its
batch snapshots the very same counters again (the same observation is counted
in every subsequent flush batch). -/
theorem c6_flush_returns_batch_without_clearing
    (t : LearningTracker) (run_id : String) (n1 n2 : ℚ) :
    ((t.maybe_flush run_id n1).2.stats = t.stats)
    ∧ ((t.maybe_flush run_id n1).1.isSome
        ↔ t.flush_interval_s ≤ n1 - t.last_flush_ts)
    ∧ (((t.maybe_flush run_id n1).2.maybe_flush run_id n2).1 = none
      ∨ ((t.maybe_flush run_id n1).2.maybe_flush run_id n2).1
        = some (t.stats.map fun p => p.2.to_snapshot p.1 run_id n2)) := by
  refine ⟨?_, ?_, ?_⟩
  · unfold LearningTracker.maybe_flush
    split_ifs <;> rfl
  · unfold LearningTracker.maybe_flush
    split_ifs with h <;> simp <;> linarith
  · unfold LearningTracker.maybe_flush
    split_ifs <;> simp

/-! ## C9 — collected-vs-reported count verification -/

/-- C9: when the first page reports an integer total `n`, `fetch_all_pages`
returns the aggregated items exactly when their number equals `n`, and raises
the count-mismatch data-integrity error otherwise: partial results are never
returned as if complete. -/
theorem c9_count_verified {α : Type} (pages : List (ListingsPage α))
    (n : ℤ) (items : List α)
    (hc : collectResults pages = .ok items)
    (hn : expectedTotal pages = some n) :
    fetch_all_pages pages =
      if (items.length : ℤ) ≠ n then .error .countMismatch else .ok items := by
  unfold fetch_all_pages
  rw [hc, hn]

/-- A 3-page scan of 50 items each whose first page reports `count=150`. -/
def c9pages : List (ListingsPage Nat) :=
  [ { count? := some 150, next? := some "page2", results? := some (List.replicate 50 0) }
  , { count? := some 150, next? := some "page3", results? := some (List.replicate 50 0) }
  , { count? := some 150, next? := none, results? := some (List.replicate 50 0) } ]

/-- The 150 items those pages carry, in page order. -/
def c9items : List Nat :=
  List.replicate 50 0 ++ (List.replicate 50 0 ++ (List.replicate 50 0 ++ []))

/-- C9, witness: on the 3×50 scan reporting `count=150` the check passes and
exactly the 150 collected items are returned. -/
theorem c9_count_verified_witness :
    collectResults c9pages = .ok c9items
    ∧ c9items.length = 150
    ∧ fetch_all_pages c9pages = .ok c9items := by
  have hc : collectResults c9pages = .ok c9items := by
    simp [c9pages, c9items, collectResults]
  have hlen : c9items.length = 150 := by
    simp [c9items]
  have h := c9_count_verified c9pages 150 c9items hc rfl
  refine ⟨hc, hlen, ?_⟩
  rw [h, hlen]
  norm_num

/-! ## C2 — reconciliation anomaly sets and reconcile_ok -/

/-- Set intersection on id lists (`activated_ids & final_active_ids`). -/
def interIds (xs ys : List String) : List String :=
  xs.filter fun x => decide (x ∈ ys)

/-- Set difference on id lists (`initial_active_ids - final_active_ids`). -/
def diffIds (xs ys : List String) : List String :=
  xs.filter fun x => decide (x ∉ ys)

theorem mem_interIds (a : String) (xs ys : List String) :
    a ∈ interIds xs ys ↔ a ∈ xs ∧ a ∈ ys := by
  simp [interIds]

theorem mem_diffIds (a : String) (xs ys : List String) :
    a ∈ diffIds xs ys ↔ a ∈ xs ∧ a ∉ ys := by
  simp [diffIds]

/-- The anomalies dict built by `full_cycle`, as a function of its two
conditionally-inserted entries. -/
def anomaliesDict (sa rg : List String) : List (String × List String) :=
  (if sa.isEmpty then [] else [("activated_still_active", sa)])
  ++ (if rg.isEmpty then [] else [("initial_active_became_inactive", rg)])

theorem anomaliesDict_lookup_still_active (sa rg : List String) :
    (((anomaliesDict sa rg).lookup "activated_still_active").getD []) = sa := by
  by_cases hsa : sa.isEmpty <;> by_cases hrg : rg.isEmpty <;>
    simp_all [anomaliesDict, List.lookup, List.isEmpty_iff]

theorem anomaliesDict_lookup_regressed (sa rg : List String) :
    (((anomaliesDict sa rg).lookup "initial_active_became_inactive").getD []) = rg := by
  by_cases hsa : sa.isEmpty <;> by_cases hrg : rg.isEmpty <;>
    simp_all [anomaliesDict, List.lookup, List.isEmpty_iff]

theorem anomaliesDict_isEmpty (sa rg : List String) :
    (anomaliesDict sa rg).isEmpty = true ↔ sa = [] ∧ rg = [] := by
  by_cases hsa : sa.isEmpty <;> by_cases hrg : rg.isEmpty <;>
    simp_all [anomaliesDict, List.isEmpty_iff]

/-- C2: every completed `full_cycle` run computes the
`activated_still_active` anomaly set as the intersection of the activated ids
with the final active ids, the `initial_active_became_inactive` anomaly set
as the initial active ids minus the final active ids (active = quantity > 0),
and reports `reconcile_ok = True` exactly when both sets are empty. -/
theorem c2_reconciliation (items : List CycleItem)
    (baseline finalIdx : ListingIndex) (actOk : String → Bool) (abort : Bool)
    (r : CycleReport)
    (h : full_cycle items baseline finalIdx actOk abort = some r) :
    (r.anomalySet "activated_still_active"
      = interIds ((toActivate items baseline).map (·.listing_id)) (activeIds finalIdx))
    ∧ (r.anomalySet "initial_active_became_inactive"
      = diffIds (activeIds baseline) (activeIds finalIdx))
    ∧ (∀ lid, lid ∈ interIds ((toActivate items baseline).map (·.listing_id)) (activeIds finalIdx)
        ↔ lid ∈ (toActivate items baseline).map (·.listing_id) ∧ lid ∈ activeIds finalIdx)
    ∧ (∀ lid, lid ∈ diffIds (activeIds baseline) (activeIds finalIdx)
        ↔ lid ∈ activeIds baseline ∧ lid ∉ activeIds finalIdx)
    ∧ (r.reconcile_ok = true ↔
        interIds ((toActivate items baseline).map (·.listing_id)) (activeIds finalIdx) = []
        ∧ diffIds (activeIds baseline) (activeIds finalIdx) = []) := by
  simp only [full_cycle] at h
  by_cases habort : abort = true ∧
      0 < ((toActivate items baseline).filter fun it => !actOk it.listing_id).length
  · rw [if_pos habort] at h
    exact absurd h (by simp)
  · rw [if_neg habort] at h
    simp only [Option.some.injEq] at h
    subst h
    refine ⟨?_, ?_, fun lid => mem_interIds lid _ _, fun lid => mem_diffIds lid _ _, ?_⟩
    · exact anomaliesDict_lookup_still_active _ _
    · exact anomaliesDict_lookup_regressed _ _
    · exact anomaliesDict_isEmpty _ _

/-- A one-candidate run: listing "a" is inactive at baseline (quantity 0),
listing "b" is active (quantity 2); the final rescan observes the same
state. -/
def c2items : List CycleItem := [{ listing_id := "a", child := { max_price := none, rest := [] } }]

def c2baseline : ListingIndex := [("a", 0), ("b", 2)]

def c2final : ListingIndex := [("a", 0), ("b", 2)]

/-- The report that run produces. -/
def c2report : CycleReport :=
  { baseline_count := 2, activated_count := 1, deactivated_count := 1
    reconcile_ok := true, anomalies := [], details_activated_ids := ["a"]
    initial_active_count := 1, final_active_count := 1 }

/-- C2, witness: on the concrete run above, `full_cycle` completes with the
reported `reconcile_ok = True` characterized by both anomaly sets being
empty. -/
theorem c2_reconciliation_witness :
    full_cycle c2items c2baseline c2final (fun _ => true) false = some c2report
    ∧ (c2report.reconcile_ok = true ↔
        interIds ((toActivate c2items c2baseline).map (·.listing_id)) (activeIds c2final) = []
        ∧ diffIds (activeIds c2baseline) (activeIds c2final) = []) := by
  have h : full_cycle c2items c2baseline c2final (fun _ => true) false = some c2report := by
    simp [full_cycle, c2items, c2baseline, c2final, c2report, toActivate,
      baselineQty, lookupQty, activeIds]
  exact ⟨h, (c2_reconciliation c2items c2baseline c2final (fun _ => true) false
    c2report h).2.2.2.2⟩

/-! ## C10 — activated/deactivated counts ignore per-item failures -/

/-- C10: every completed `full_cycle` run reports `activated_count` and
`deactivated_count` both equal to the number of candidate items whose
baseline quantity was ≤ 0 or absent (the selected subset) — a value that does
not depend on the per-item mutation outcome `actOk`, so per-item failures
never reduce these counts. -/
theorem c10_counts_are_selection_size (items : List CycleItem)
    (baseline finalIdx : ListingIndex) (actOk : String → Bool) (abort : Bool)
    (r : CycleReport)
    (h : full_cycle items baseline finalIdx actOk abort = some r) :
    r.activated_count = (toActivate items baseline).length
    ∧ r.deactivated_count = (toActivate items baseline).length
    ∧ (toActivate items baseline).length
      = (items.filter fun it =>
          match lookupQty baseline it.listing_id with
          | none => true
          | some q => decide (q ≤ 0)).length := by
  simp only [full_cycle] at h
  by_cases habort : abort = true ∧
      0 < ((toActivate items baseline).filter fun it => !actOk it.listing_id).length
  · rw [if_pos habort] at h
    exact absurd h (by simp)
  · rw [if_neg habort] at h
    simp only [Option.some.injEq] at h
    subst h
    refine ⟨rfl, rfl, ?_⟩
    unfold toActivate
    congr 1
    apply List.filter_congr
    intro it _
    unfold baselineQty
    cases lookupQty baseline it.listing_id <;> simp

/-- A two-candidate run where one of the two activation mutations fails:
"a" has baseline quantity 0, "b" has no baseline entry; the mutation of "b"
fails (`actOk "b" = false`). -/
def c10items : List CycleItem :=
  [ { listing_id := "a", child := { max_price := none, rest := [] } }
  , { listing_id := "b", child := { max_price := none, rest := [] } } ]

def c10baseline : ListingIndex := [("a", 0)]

def c10final : ListingIndex := []

def c10report : CycleReport :=
  { baseline_count := 1, activated_count := 2, deactivated_count := 2
    reconcile_ok := true, anomalies := [], details_activated_ids := ["a", "b"]
    initial_active_count := 0, final_active_count := 0 }

/-- C10, witness: with one of two mutations failing, the completed run still
reports both counts as 2, the size of the selected subset. -/
theorem c10_counts_witness :
    full_cycle c10items c10baseline c10final (fun lid => lid == "a") false
      = some c10report
    ∧ c10report.activated_count = (toActivate c10items c10baseline).length
    ∧ c10report.deactivated_count = (toActivate c10items c10baseline).length := by
  have h : full_cycle c10items c10baseline c10final (fun lid => lid == "a") false
      = some c10report := by
    simp [full_cycle, c10items, c10baseline, c10final, c10report, toActivate,
      baselineQty, lookupQty, activeIds]
  have hc := c10_counts_are_selection_size c10items c10baseline c10final
    (fun lid => lid == "a") false c10report h
  exact ⟨h, hc.1, hc.2.1⟩

/-! ## C4 — what acquire() actually does when no full token is available -/

/-- C4: evaluating `TokenBucket.acquire` (the bucket `Requester` uses) on
`TokenBucket(max_per_window=1, window_seconds=10)`.  The first `acquire` at
t=0 finds a full token, consumes it and returns a zero wait.  The second
`acquire` at t=0 finds `tokens=0 < 1`, computes the projected wait of 10s and
returns it — leaving the token count exactly as it was: no token is consumed
on the wait path, contradicting the contract that `acquire` blocks until a
token is available and consumes exactly one (and in the source this path
cannot even run: rate_limiter.py calls `asyncio.sleep` without ever importing
`asyncio`, so the wait branch raises `NameError` at runtime). -/
theorem c4_wait_path_consumes_no_token :
    ((TokenBucket.init 1 10 0).acquire 0).2 = 0
    ∧ ((TokenBucket.init 1 10 0).acquire 0).1.tokens = 0
    ∧ (((TokenBucket.init 1 10 0).acquire 0).1.acquire 0).2 = 10
    ∧ (((TokenBucket.init 1 10 0).acquire 0).1.acquire 0).1.tokens
      = ((TokenBucket.init 1 10 0).acquire 0).1.tokens := by
  norm_num [TokenBucket.init, TokenBucket.acquire, TokenBucket.effective_max,
    max_def, min_def]

/-! ## C3 — the token-range invariant 0 ≤ tokens ≤ effective_max -/

/-- The claimed invariant for the `Requester`'s bucket: the token count is
non-negative and does not exceed the current `effective_max()`. -/
def TokenBucket.tokensInRange (b : TokenBucket) : Prop :=
  0 ≤ b.tokens ∧ b.tokens ≤ (b.effective_max : ℚ)

/-- The claimed invariant for the adaptive bucket: the token count is
non-negative and does not exceed the current effective ceiling. -/
def AdaptiveTokenBucket.tokensInRange (b : AdaptiveTokenBucket) : Prop :=
  0 ≤ b.tokens ∧ b.tokens ≤ b.eff_max

/-- C3, counterexample: the claim says `0 ≤ tokens ≤ effective_max` holds
after each operation.  Starting from a fresh `TokenBucket(10, 60)` (a state
satisfying the invariant), a single `penalize(0.5)` halves `effective_max` to
5 but leaves `tokens = 10` untouched (rate_limiter.py:40-44 does not re-clamp
the token count, unlike `AdaptiveTokenBucket.penalize`), so the upper bound
is violated. -/
theorem c3_counterexample_penalize_exceeds_cap :
    (TokenBucket.init 10 60 0).tokensInRange
    ∧ ¬((TokenBucket.init 10 60 0).penalize (1 / 2)).tokensInRange := by
  constructor
  · constructor <;>
      norm_num [TokenBucket.init, TokenBucket.effective_max, max_def]
  · intro hrange
    have h := hrange.2
    norm_num [TokenBucket.init, TokenBucket.penalize, TokenBucket.effective_max,
      max_def] at h

theorem effMaxNat_mono {x y : ℚ} (h : x ≤ y) :
    max 1 ⌊x⌋.toNat ≤ max 1 ⌊y⌋.toNat :=
  max_le_max le_rfl (Int.toNat_le_toNat (Int.floor_le_floor h))

theorem effMaxCast_mono {x y : ℚ} (h : x ≤ y) :
    ((max 1 ⌊x⌋.toNat : ℕ) : ℚ) ≤ ((max 1 ⌊y⌋.toNat : ℕ) : ℚ) := by
  exact_mod_cast effMaxNat_mono h

theorem tb_acquire_inv (b : TokenBucket) (now : ℚ)
    (hwin : 0 < b.window_seconds) (hnow : b.updated_at ≤ now)
    (h0 : 0 ≤ b.tokens) : (b.acquire now).1.tokensInRange := by
  simp only [TokenBucket.acquire]
  have heff0 : (0 : ℚ) ≤ (b.effective_max : ℚ) := Nat.cast_nonneg _
  have hrefill : 0 ≤ (b.effective_max : ℚ) * (now - b.updated_at) / b.window_seconds :=
    div_nonneg (mul_nonneg heff0 (by linarith)) hwin.le
  have hmin_le : min ((b.effective_max : ℚ))
      (b.tokens + (b.effective_max : ℚ) * (now - b.updated_at) / b.window_seconds)
      ≤ (b.effective_max : ℚ) := min_le_left _ _
  have hmin_nonneg : 0 ≤ min ((b.effective_max : ℚ))
      (b.tokens + (b.effective_max : ℚ) * (now - b.updated_at) / b.window_seconds) :=
    le_min heff0 (by linarith)
  split_ifs with hlt
  · exact ⟨hmin_nonneg, hmin_le⟩
  · push_neg at hlt
    refine ⟨by simpa using sub_nonneg.mpr hlt, ?_⟩
    show min ((b.effective_max : ℚ)) _ - 1 ≤ _
    simp only [TokenBucket.effective_max] at hmin_le ⊢
    linarith

theorem tb_record_ok_inv (b : TokenBucket) (k : Nat)
    (h : b.tokensInRange) : (b.record_ok k).tokensInRange := by
  simp only [TokenBucket.record_ok]
  split_ifs with hg
  · refine ⟨h.1, le_trans h.2 ?_⟩
    have hle : b.eff_max ≤ min (b.base_max : ℚ)
        (b.eff_max + max 1 (((b.base_max : ℚ) - b.eff_max) * (1 / 4))) := by
      refine le_min (le_of_lt hg.2) ?_
      have : (0 : ℚ) ≤ max 1 (((b.base_max : ℚ) - b.eff_max) * (1 / 4)) :=
        le_trans zero_le_one (le_max_left _ _)
      linarith
    simp only [TokenBucket.effective_max]
    exact effMaxCast_mono hle
  · exact h

theorem atb_acquireAux_inv (fuel : Nat) (b : AdaptiveTokenBucket) (now : ℚ)
    (b' : AdaptiveTokenBucket) (t : ℚ)
    (h : AdaptiveTokenBucket.acquireAux fuel b now = some (b', t)) :
    b'.tokensInRange := by
  induction fuel generalizing b now with
  | zero => simp [AdaptiveTokenBucket.acquireAux] at h
  | succ n ih =>
    rw [AdaptiveTokenBucket.acquireAux] at h
    by_cases hc : 1 ≤ (b.refillAt now).tokens
    · rw [if_pos hc, Option.some.injEq, Prod.mk.injEq] at h
      obtain ⟨hb', -⟩ := h
      subst hb'
      have hup : (b.refillAt now).tokens ≤ (b.refillAt now).eff_max :=
        min_le_right _ _
      refine ⟨by simpa using sub_nonneg.mpr hc, ?_⟩
      show (b.refillAt now).tokens - 1 ≤ (b.refillAt now).eff_max
      linarith
    · rw [if_neg hc] at h
      exact ih _ _ h

theorem atb_penalize_inv (b : AdaptiveTokenBucket) (h0 : 0 ≤ b.tokens) :
    b.penalize.tokensInRange := by
  simp only [AdaptiveTokenBucket.penalize]
  refine ⟨le_min h0 ?_, min_le_right _ _⟩
  exact le_trans zero_le_one (le_max_left _ _)

theorem atb_record_ok_inv (b : AdaptiveTokenBucket)
    (h : b.tokensInRange) : b.record_ok.tokensInRange := by
  simp only [AdaptiveTokenBucket.record_ok]
  split_ifs with hg
  · refine ⟨h.1, le_trans h.2 (le_min (le_of_lt hg.2) (by linarith))⟩
  · exact h

/-- C3 (amended): the invariant `0 ≤ tokens ≤ effective_max` is preserved by
`acquire` and `record_ok` on the `Requester`'s `TokenBucket`, and by
`acquire`, `penalize` and `record_ok` on `AdaptiveTokenBucket` (whose
`penalize` re-clamps the token count); `TokenBucket.penalize`, however, only
guarantees the lower bound `0 ≤ tokens` — it shrinks `effective_max` without
re-clamping `tokens`, so the upper bound can be violated until the next
`acquire` re-caps the count. -/
theorem c3_token_range_invariant
    (b : TokenBucket) (now f : ℚ) (k : Nat)
    (a : AdaptiveTokenBucket) (fuel : Nat) (anow : ℚ)
    (res : AdaptiveTokenBucket × ℚ)
    (hwin : 0 < b.window_seconds) (hnow : b.updated_at ≤ now)
    (hb : b.tokensInRange) (ha : a.tokensInRange)
    (hacq : AdaptiveTokenBucket.acquire fuel a anow = some res) :
    (b.acquire now).1.tokensInRange
    ∧ (b.record_ok k).tokensInRange
    ∧ 0 ≤ (b.penalize f).tokens
    ∧ a.penalize.tokensInRange
    ∧ a.record_ok.tokensInRange
    ∧ res.1.tokensInRange := by
  refine ⟨tb_acquire_inv b now hwin hnow hb.1, tb_record_ok_inv b k hb, hb.1,
    atb_penalize_inv a ha.1, atb_record_ok_inv a ha, ?_⟩
  unfold AdaptiveTokenBucket.acquire at hacq
  rw [Option.map_eq_some'] at hacq
  obtain ⟨p, hp, hres⟩ := hacq
  have := atb_acquireAux_inv fuel a anow p.1 p.2 (by simpa using hp)
  simpa [← hres] using this

/-- The bucket state `AdaptiveTokenBucket(10, 60, 0.5, 10).acquire()` leaves
behind when called at construction time: one token consumed, no wait. -/
def c3res : AdaptiveTokenBucket :=
  { base_max := 10, window := 60, penalty_factor := 1 / 2, recover_after_ok := 10
    eff_max := 10, tokens := 9, last := 0, ok_streak := 0 }

/-- C3, witness: the amended invariant applied to fresh
`TokenBucket(10, 60)` / `AdaptiveTokenBucket(10, 60, 0.5, 10)` states. -/
theorem c3_token_range_invariant_witness :
    ((TokenBucket.init 10 60 0).acquire 0).1.tokensInRange
    ∧ ((TokenBucket.init 10 60 0).record_ok 1).tokensInRange
    ∧ 0 ≤ ((TokenBucket.init 10 60 0).penalize (1 / 2)).tokens
    ∧ (AdaptiveTokenBucket.init 10 60 (1 / 2) 10 0).penalize.tokensInRange
    ∧ (AdaptiveTokenBucket.init 10 60 (1 / 2) 10 0).record_ok.tokensInRange
    ∧ ((c3res, (0 : ℚ))).1.tokensInRange := by
  have hb : (TokenBucket.init 10 60 0).tokensInRange := by
    constructor <;>
      norm_num [TokenBucket.init, TokenBucket.tokensInRange,
        TokenBucket.effective_max, max_def]
  have ha : (AdaptiveTokenBucket.init 10 60 (1 / 2) 10 0).tokensInRange := by
    constructor <;>
      norm_num [AdaptiveTokenBucket.init, AdaptiveTokenBucket.tokensInRange,
        Nat.max_def]
  have hacq : AdaptiveTokenBucket.acquire 1
      (AdaptiveTokenBucket.init 10 60 (1 / 2) 10 0) 0 = some (c3res, 0) := by
    norm_num [AdaptiveTokenBucket.acquire, AdaptiveTokenBucket.acquireAux,
      AdaptiveTokenBucket.refillAt, AdaptiveTokenBucket.init, c3res,
      Nat.max_def, max_def, min_def]
  exact c3_token_range_invariant (TokenBucket.init 10 60 0) 0 (1 / 2) 1
    (AdaptiveTokenBucket.init 10 60 (1 / 2) 10 0) 1 0 (c3res, 0)
    (by norm_num [TokenBucket.init]) (by norm_num [TokenBucket.init])
    hb ha hacq
